import Mathlib

/-!
Verification development for the speech-capture and transcript-assembly core of
the presentation-ai-discussion repository.

Each definition below is a shallow embedding of one function of the source:

* `generateSpeakerName` — the identical callback of
  `src/hooks/use-external-speech-recognition.ts` (lines 72–90),
  `src/hooks/use-streaming-speech-recognition.ts` (lines 74–92) and
  `src/hooks/use-realtime-speech-recognition.ts` (lines 84–102).
* `handleResult`, `handleError`, `srStop` — `src/hooks/use-speech-recognition.ts`.
* `webOnError`, `webOnEnd`, `webOnResult`, `webFireRestart`, `webStop` — the
  `useWebSpeechRecognition` hook (`src/unnamed/part_000`).
* `mgrOnResult` — `SpeechRecognitionManager.onresult` of
  `src/lib/media-recorder-speech.ts` (lines 316–331).
* `mgrOnError`, `mgrStop`, `mgrFireFallback` — the fallback-enabled
  `SpeechRecognitionManager` staged at lines 437–696 of the same file, the
  class `use-speech-recognition.ts` imports from `@/lib/speech-recognition`;
  `composedStreak` drives the hook and this manager together.
* `sendAudioToAPI`, `extOnStop`, `extStop` — `src/hooks/use-external-speech-recognition.ts`.
* `sendAudioChunk`, `strStop` — `src/hooks/use-streaming-speech-recognition.ts`.
* `pageOnResult` — the `useWebSpeechRecognition` `onResult` callback of
  `src/app/presentation/[id]/page.tsx` (lines 221–246).

React state (`useState`) and refs (`useRef`) become fields of explicit state
records; `setTimeout`/`setInterval` handles become `Option Nat` fields holding
the scheduled delay (`none` = no pending timer); callbacks to the caller
(`onResult`, `onError`) become returned fragment lists and `surfaced` lists.
JavaScript numbers that only ever hold provider confidence scores are embedded
as `ℚ` (the code never does arithmetic on them, only copies and defaults).
-/

namespace SpeechCore

/-- Embedding of JavaScript `String.prototype.includes`: `startsWithL s p`
is true when `p` is a prefix of the character list `s`. -/
def startsWithL : List Char → List Char → Bool
  | _, [] => true
  | [], _ :: _ => false
  | c :: cs, p :: ps => c == p && startsWithL cs ps

/-- True exactly when the second list occurs as a contiguous substring of the first. -/
def hasSub : List Char → List Char → Bool
  | [], pat => pat.isEmpty
  | c :: rest, pat => startsWithL (c :: rest) pat || hasSub rest pat

/-- JavaScript `s.includes(pat)`. -/
def strIncludes (s pat : String) : Bool := hasSub s.data pat.data

/-- Whitespace test used to embed JavaScript `String.prototype.trim`
(space, tab, line feed, carriage return — the characters that occur in this
code base's data). -/
def isJsSpace (c : Char) : Bool := c == ' ' || c == '\t' || c == '\n' || c == '\r'

/-- Character-list trim: drop whitespace from both ends. -/
def trimChars (l : List Char) : List Char :=
  ((l.dropWhile isJsSpace).reverse.dropWhile isJsSpace).reverse

/-- JavaScript `s.trim()`. -/
def jsTrim (s : String) : String := ⟨trimChars s.data⟩

/-! SpeakerRegistry.

The three hooks `use-external-speech-recognition.ts`,
`use-streaming-speech-recognition.ts` and `use-realtime-speech-recognition.ts`
contain the same `generateSpeakerName` callback: a fixed five-name pool indexed
by `speakerTag - 1`, with a synthesized fallback label built from the tag,
and a `speakers` map written only when the tag is absent. -/

/-- The fixed name pool `['話者A', '話者B', '話者C', '話者D', '話者E']`. -/
def speakerNames : List String := ["話者A", "話者B", "話者C", "話者D", "話者E"]

/-- Embedding of the name expression: the pool entry at index tag − 1, with
the synthesized fallback label when the index is out of range.
Tags are 1-based; in JavaScript a tag of 0 indexes position −1, which is
`undefined` and falls back, hence the explicit 0 case (ℕ subtraction would
otherwise alias tag 0 to pool index 0). -/
def generateName (tag : Nat) : String :=
  if tag = 0 then "話者" ++ toString tag
  else (speakerNames.get? (tag - 1)).getD ("話者" ++ toString tag)

/-- The `speakers` state object, embedded as an association list. -/
abbrev Speakers := List (Nat × String)

/-- Resolution function `generateSpeakerName`: the `setSpeakers` updater keeps the map
unchanged when the tag already has a name and otherwise adds the pool name;
the function then returns the pool name computed from the tag alone. -/
def generateSpeakerName (s : Speakers) (tag : Nat) : Speakers × String :=
  let s' := match s.lookup tag with
    | some _ => s
    | none => s ++ [(tag, generateName tag)]
  (s', generateName tag)

/-! Transcript fragments and provider responses -/

/-- Type `TranscriptResult` of `src/lib/media-recorder-speech.ts`: the provider
confidence is `Option`al because the browser engine may omit the score
(the TypeScript type says `number` but the value can be `undefined` at
runtime, which is what the `|| 0` / `|| 0.8` guards in the hooks are for). -/
structure TranscriptResult where
  text : String
  isFinal : Bool
  confidence : Option ℚ
deriving DecidableEq, Repr

/-- One speaker segment of a provider response (`{ speakerTag, text }`). -/
structure SpeakerSegment where
  speakerTag : Nat
  text : String
deriving DecidableEq, Repr

/-- The `result` object of a `/api/deepgram` response. -/
structure ApiResult where
  speakers : Option (List SpeakerSegment) := none
  transcript : Option String := none
  confidence : Option ℚ := none
deriving DecidableEq, Repr

/-- Outcome of one `fetch('/api/deepgram')` call: the promise rejects
(`netError`, carrying the error detail used in the message), the response is
not ok (`httpError` with the status), or a JSON body `{ success, result }`
arrives. -/
inductive ApiOutcome where
  | netError (detail : String)
  | httpError (status : Nat)
  | ok (success : Bool) (result : Option ApiResult)
deriving DecidableEq, Repr

/-- A fragment delivered to the caller through `onResult` by the upload and
streaming hooks (`TranscriptResultWithSpeaker` / `StreamingTranscriptResult`). -/
structure Fragment where
  text : String
  isFinal : Bool
  confidence : ℚ
  speaker : Option (Nat × String) := none
deriving DecidableEq, Repr

/-! NativeRecognitionBackend, variant 1: `use-speech-recognition.ts`

The hook owns `isListening`, `transcript`, `interimTranscript`, `error`
(React state), `retryCountRef` and `retryTimeoutRef` (refs). The retry
timeout handle is embedded as the scheduled delay. -/

/-- Hook parameters `maxRetries` (default 3) and `retryDelay` (default 2000). -/
structure SRConfig where
  maxRetries : Nat := 3
  retryDelay : Nat := 2000
deriving DecidableEq, Repr

/-- State of the `useSpeechRecognition` hook. `surfaced` records the
arguments of `onError?.(...)` calls in order. -/
structure SRState where
  isListening : Bool := false
  transcript : String := ""
  interimTranscript : String := ""
  errorMsg : Option String := none
  retryCount : Nat := 0
  retryTimeout : Option Nat := none
  surfaced : List String := []
deriving DecidableEq, Repr

/-- Function `handleResult` (lines 50–59): a final result is appended to `transcript`
followed by a space and clears the interim buffer; an interim result replaces
the interim buffer. -/
def handleResult (s : SRState) (r : TranscriptResult) : SRState :=
  if r.isFinal then
    { s with transcript := s.transcript ++ r.text ++ " ", interimTranscript := "" }
  else
    { s with interimTranscript := r.text }

/-- Function `handleError` (lines 62–107). The retry branch requires `canRetry`, a
remaining budget, and `errorMessage.includes('ネットワーク')`; it increments the
counter and schedules a restart after `retryDelay * Math.pow(2, retryCount - 1)`
(computed after the increment). Otherwise the error is surfaced through
`onError`, listening is cleared and the counter is reset. -/
def handleError (cfg : SRConfig) (s : SRState) (msg : String) (canRetry : Bool) : SRState :=
  if canRetry && decide (s.retryCount < cfg.maxRetries) && strIncludes msg "ネットワーク" then
    { s with
        retryCount := s.retryCount + 1,
        errorMsg := some (msg ++ " (再試行 " ++ toString (s.retryCount + 1) ++ "/"
          ++ toString cfg.maxRetries ++ ")"),
        retryTimeout := some (cfg.retryDelay * 2 ^ s.retryCount) }
  else
    { s with
        errorMsg := some msg,
        isListening := false,
        retryCount := 0,
        surfaced := s.surfaced ++ [msg] }

/-- Function `stop` (lines 150–163): clear the pending retry timer, reset the retry
counter, and ask the engine to stop (the engine's `onend` will later clear
`isListening`). -/
def srStop (s : SRState) : SRState :=
  { s with retryTimeout := none, retryCount := 0 }

/-! NativeRecognitionBackend, variant 2: `useWebSpeechRecognition`
(`src/unnamed/part_000`) — the variant mounted by
`src/app/presentation/[id]/page.tsx`.

`maxRetries` is the constant 3 and `retryDelayRef` holds the constant 1000. -/

/-- Constant `maxRetries = 3` of the hook. -/
def webMaxRetries : Nat := 3

/-- Constant `retryDelayRef.current = 1000` of the hook. -/
def webRetryDelay : Nat := 1000

/-- Hook parameters `continuous` and `interimResults` (both default true). -/
structure WebConfig where
  continuous : Bool := true
  interimResults : Bool := true
deriving DecidableEq, Repr

/-- State of `useWebSpeechRecognition`. `hasRecognition` embeds
`recognitionRef.current !== null`; `pendingRestart` is the delay of the
scheduled `setTimeout` restart (network retry or the 100 ms `onend` restart),
`none` when no restart is scheduled. -/
structure WebState where
  isListening : Bool := false
  errorMsg : Option String := none
  retryCount : Nat := 0
  pendingRestart : Option Nat := none
  hasRecognition : Bool := false
  finalTranscript : String := ""
  interimTranscript : String := ""
  surfaced : List String := []
deriving DecidableEq, Repr

/-- Handler `recognition.onerror` (lines 174–233). A `no-speech` error returns silently;
`network` with remaining budget increments the counter and schedules a restart
after `retryDelayRef.current * retryCountRef.current` (after the increment)
and returns before `setIsListening(false)`; `network` with the budget
exhausted only breaks out of the switch, so that path merely clears
`isListening` — no `setError` and no `onError` call; every other path
surfaces its message through `setError`/`onError` and clears `isListening`. -/
def webOnError (s : WebState) (err : String) : WebState :=
  let errorMessage := "音声認識エラー: " ++ err
  if err == "no-speech" then s
  else if err == "network" then
    if s.retryCount < webMaxRetries then
      { s with
          retryCount := s.retryCount + 1,
          pendingRestart := some (webRetryDelay * (s.retryCount + 1)) }
    else
      { s with isListening := false }
  else if err == "audio-capture" then
    { s with
        errorMsg := some "マイクへのアクセスが拒否されました",
        surfaced := s.surfaced ++ ["マイクへのアクセスが拒否されました"],
        isListening := false }
  else if err == "not-allowed" then
    { s with
        errorMsg := some "音声認識の権限が拒否されました",
        surfaced := s.surfaced ++ ["音声認識の権限が拒否されました"],
        isListening := false }
  else if err == "service-not-allowed" then
    { s with
        errorMsg := some "音声認識サービスが利用できません",
        surfaced := s.surfaced ++ ["音声認識サービスが利用できません"],
        isListening := false }
  else
    { s with
        errorMsg := some errorMessage,
        surfaced := s.surfaced ++ [errorMessage],
        isListening := false }

/-- The network-retry `setTimeout` callback firing: it only calls
`recognition.start()` (after `setError(null)`) when `recognitionRef.current`
is still set and `continuous` holds. The returned flag tells whether a start
was attempted. -/
def webFireRestart (cfg : WebConfig) (s : WebState) : WebState × Bool :=
  let s' := { s with pendingRestart := none }
  if s.hasRecognition && cfg.continuous then
    ({ s' with errorMsg := none }, true)
  else (s', false)

/-- Handler `recognition.onend` (lines 153–172): clear `isListening`, then in
continuous mode with the ref still set and budget remaining, schedule a
restart after 100 ms. -/
def webOnEnd (cfg : WebConfig) (s : WebState) : WebState :=
  let s' := { s with isListening := false }
  if cfg.continuous && s.hasRecognition && decide (s.retryCount < webMaxRetries) then
    { s' with pendingRestart := some 100 }
  else s'

/-- Function `stop` (lines 331–345): set `recognition.continuous = false`, stop the
engine, null the ref, clear `isListening`. (The pending retry timer is not
cleared, but its callback tests `recognitionRef.current`, which is now null.) -/
def webStop (s : WebState) : WebState :=
  { s with hasRecognition := false, isListening := false }

/-- One entry of a `SpeechRecognitionEvent.results` batch
(`result[0].transcript`, `result[0].confidence`, `result.isFinal`). -/
structure WebRes where
  text : String
  confidence : Option ℚ
  isFinal : Bool
deriving DecidableEq, Repr

/-- A `WebSpeechTranscriptResult` delivered through `onResult`. -/
structure WebFragOut where
  text : String
  confidence : ℚ
  isFinal : Bool
  isInterim : Bool
deriving DecidableEq, Repr

/-- The result loop of `recognition.onresult` (lines 240–265): accumulate the
final text additions (each final transcript followed by a space), the
concatenated interim text, and the final fragments emitted in order. Each
final fragment's confidence is `result[0].confidence || 0`. -/
def webCollect : List WebRes → String × String × List WebFragOut
  | [] => ("", "", [])
  | r :: rs =>
    let (fa, it, fr) := webCollect rs
    if r.isFinal then
      (r.text ++ " " ++ fa, it, ⟨r.text, r.confidence.getD 0, true, false⟩ :: fr)
    else
      (fa, r.text ++ it, fr)

/-- Handler `recognition.onresult` (lines 235–280): run the loop, replace the interim
buffer with the batch's interim text, and emit the final fragments followed by
one interim fragment (confidence 0) when interim text is present and
`interimResults` is on. -/
def webOnResult (cfg : WebConfig) (s : WebState) (ev : List WebRes) :
    WebState × List WebFragOut :=
  let (finalAdd, interimText, finalFrags) := webCollect ev
  let frags := finalFrags ++
    (if interimText != "" && cfg.interimResults then
      [⟨interimText, 0, false, true⟩] else [])
  ({ s with
      finalTranscript := s.finalTranscript ++ finalAdd,
      interimTranscript := interimText }, frags)

/-- A streak of consecutive `network` errors with no intervening successful
result: each error is handled by `webOnError`; while a restart is scheduled,
the timer fires (`webFireRestart`) and the restarted engine fails again
without opening a session — its `onstart` (which resets the retry counter)
never fires, the failure mode of a persistent outage.
Returns the final state and the list of restart delays scheduled, in order. -/
def webNetStreak (cfg : WebConfig) : Nat → WebState → WebState × List Nat
  | 0, s => (s, [])
  | n + 1, s =>
    let s1 := webOnError s "network"
    match s1.pendingRestart with
    | some d =>
      let (s2, ds) := webNetStreak cfg n (webFireRestart cfg s1).1
      (s2, d :: ds)
    | none => (s1, [])

/-- The state right after a successful `start()` of the hook:
listening, ref set, counter reset. -/
def webInit : WebState :=
  { isListening := true, hasRecognition := true }

/-! Manager `SpeechRecognitionManager.onresult` (`src/lib/media-recorder-speech.ts`,
lines 316–331; the fallback variant's loop at lines 611–624 builds the same
fragments): one `TranscriptResult` per new result, the provider confidence
copied through unchanged (no default is applied). -/

/-- Handler `recognition.onresult` of the manager as a batch-to-fragments map. -/
def mgrOnResult (ev : List WebRes) : List TranscriptResult :=
  ev.map (fun r => ⟨r.text, r.isFinal, r.confidence⟩)

/-! Fallback layer of the `SpeechRecognitionManager` that
`use-speech-recognition.ts` imports from `@/lib/speech-recognition`
(staged in `src/lib/media-recorder-speech.ts`, lines 437–696): its `onerror`
translates engine error codes into Japanese messages, silently schedules an
internal 1-second fallback restart while `fallbackAttempts <
maxFallbackAttempts` (= 2), and only surfaces the message through
`config.onError` once that internal budget is spent (resetting the counter).
The scheduled `setTimeout` handle is stored nowhere, and neither `stop()` nor
`abort()` (lines 647–658) clears it; its callback unconditionally
re-initializes and starts recognition. -/

/-- Internal fallback budget `maxFallbackAttempts = 2` of the manager. -/
def mgrMaxFallbackAttempts : Nat := 2

/-- Japanese message the manager's `onerror` produces for the engine code
`network`. -/
def mgrNetworkMsg : String := "ネットワークエラーです。インターネット接続を確認してください"

/-- State of one `SpeechRecognitionManager` instance: the fallback attempt
counter, the `isListening` flag driven by engine `onstart`/`onend`, whether
`this.recognition` is set, and the pending internal fallback-retry timer
(its delay; `none` when no such timer is pending). -/
structure MgrState where
  fallbackAttempts : Nat := 0
  mgrListening : Bool := false
  hasRecognition : Bool := false
  pendingFallback : Option Nat := none
deriving DecidableEq, Repr

/-- Manager `recognition.onerror` (lines 545–605): map the engine code to a
message and a `shouldTryFallback` flag; with `fallbackMode` on, the flag set
and attempts remaining, increment the counter, schedule the internal retry
after 1000 ms and return without surfacing; otherwise reset the counter and
surface the message (returned as `some`). -/
def mgrOnError (fallbackMode : Bool) (m : MgrState) (err : String) :
    MgrState × Option String :=
  let p : String × Bool :=
    if err == "network" then (mgrNetworkMsg, true)
    else if err == "not-allowed" then
      ("マイクの許可が必要です。ブラウザ設定でマイクを許可してください", false)
    else if err == "no-speech" then
      ("音声が検出されませんでした。マイクが正常に動作しているか確認してください", true)
    else if err == "audio-capture" then
      ("オーディオキャプチャエラーです。マイクが使用できません", true)
    else if err == "service-not-allowed" then ("音声認識サービスが利用できません", true)
    else if err == "aborted" then ("音声認識が中断されました", false)
    else if err == "language-not-supported" then ("指定された言語はサポートされていません", false)
    else ("音声認識エラー: " ++ err, true)
  if fallbackMode && p.2 && decide (m.fallbackAttempts < mgrMaxFallbackAttempts) then
    ({ m with
        fallbackAttempts := m.fallbackAttempts + 1,
        pendingFallback := some 1000 }, none)
  else
    ({ m with fallbackAttempts := 0 }, some p.1)

/-- The internal fallback `setTimeout` callback (lines 589–597) firing: it
unconditionally re-initializes `this.recognition` and calls `start()`
(whereupon the engine's `onstart` sets `isListening` back to true) — it
checks neither `isListening` nor whether `stop()` ran in the meantime. -/
def mgrFireFallback (m : MgrState) : MgrState :=
  { m with pendingFallback := none, hasRecognition := true, mgrListening := true }

/-- Manager `stop()` (lines 647–651): stop the engine when one is active
(its `onend` clears `isListening`); the pending fallback timer is not
cleared — no handle to it is ever stored. -/
def mgrStop (m : MgrState) : MgrState :=
  if m.hasRecognition && m.mgrListening then { m with mgrListening := false } else m

/-- The composed native backend of `use-speech-recognition.ts`: the hook
state plus its current manager instance. -/
structure ComposedState where
  hook : SRState
  mgr : MgrState
deriving DecidableEq, Repr

/-- The composed state right after the hook's `start()` succeeded. -/
def composedInit : ComposedState :=
  ⟨{ isListening := true }, { hasRecognition := true, mgrListening := true }⟩

/-- A streak of consecutive engine `network` errors with no intervening
successful result, across both layers: each engine error goes to the
manager's `onerror`; a silently scheduled internal fallback retry fires
(restarting the engine, which fails again); a surfaced message goes to the
hook's `handleError` with `canRetry = true`, whose retry branch (same guard
as `handleError`) schedules a hook restart after `retryDelay * 2^retryCount`
whose callback aborts the old manager and starts a fresh one; once the hook
budget is spent the surfaced failure is terminal and the streak ends.
As in `webNetStreak`, the restarted engines fail without opening a session,
so no `onstart` (which would reset the hook retry counter) fires.
Returns the final state, the manager-internal restart delays and the
hook-level restart delays, each in order. -/
def composedStreak (cfg : SRConfig) : Nat → ComposedState → ComposedState × List Nat × List Nat
  | 0, c => (c, [], [])
  | n + 1, c =>
    let r := mgrOnError true c.mgr "network"
    match r.2 with
    | none =>
      let k := composedStreak cfg n ⟨c.hook, mgrFireFallback r.1⟩
      (k.1, 1000 :: k.2.1, k.2.2)
    | some msg =>
      if decide (c.hook.retryCount < cfg.maxRetries) && strIncludes msg "ネットワーク" then
        let d := cfg.retryDelay * 2 ^ c.hook.retryCount
        let h1 := handleError cfg c.hook msg true
        let k := composedStreak cfg n
          ⟨{ h1 with retryTimeout := none, errorMsg := none },
           { hasRecognition := true, mgrListening := true }⟩
        (k.1, k.2.1, d :: k.2.2)
      else
        (⟨handleError cfg c.hook msg true, r.1⟩, [], [])

/-! ChunkedUploadBackend: `use-external-speech-recognition.ts`. Audio chunks
are embedded by their byte sizes; the finalized blob's size is their sum. -/

/-- Hook parameters `continuous` (default true) and `recordingDuration`
(default 12000 ms). -/
structure ExtConfig where
  continuous : Bool := true
  recordingDuration : Nat := 12000
deriving DecidableEq, Repr

/-- State of `useExternalSpeechRecognition`. `recordingTimer` is the pending
`recordingDuration` timeout, `restartTimer` the pending 100 ms cycle restart. -/
structure ExtState where
  isListening : Bool := false
  errorMsg : Option String := none
  speakers : Speakers := []
  transcript : String := ""
  chunks : List Nat := []
  recordingTimer : Option Nat := none
  restartTimer : Option Nat := none
  surfaced : List String := []
deriving DecidableEq, Repr

/-- The `data.result.speakers.forEach` loop shared by the upload and streaming
hooks: resolve each segment's speaker name (updating the registry) and emit
one final fragment per segment, with the response-level confidence. -/
def processSegments (sp : Speakers) (conf : ℚ) :
    List SpeakerSegment → Speakers × List Fragment
  | [] => (sp, [])
  | seg :: rest =>
    let r := generateSpeakerName sp seg.speakerTag
    let (sp2, frs) := processSegments r.1 conf rest
    (sp2, ⟨seg.text, true, conf, some (seg.speakerTag, r.2)⟩ :: frs)

/-- Concatenation `fullText += speakerSegment.text + ' '` of the upload hook. -/
def extFullText : List SpeakerSegment → String
  | [] => ""
  | seg :: rest => seg.text ++ " " ++ extFullText rest

/-- JavaScript `c || d` on a confidence value: the default replaces an absent
score and, as every falsy value, also a present score of 0. -/
def jsOrDefault (c : Option ℚ) (d : ℚ) : ℚ :=
  match c with
  | none => d
  | some x => if x = 0 then d else x

/-- Function `sendAudioToAPI` (lines 93–170) given the outcome of the fetch:
a rejected promise or a non-ok response lands in the catch block, which sets
and surfaces an error message (but does not touch `isListening`); a successful
response emits one final fragment per speaker segment
(confidence `data.result.confidence || 0.8`), or one fragment for a flat
non-empty transcript, and appends to the transcript state. -/
def sendAudioToAPI (st : ExtState) (o : ApiOutcome) : ExtState × List Fragment :=
  match o with
  | .netError detail =>
    let m := "音声認識エラー: " ++ detail
    ({ st with errorMsg := some m, surfaced := st.surfaced ++ [m] }, [])
  | .httpError status =>
    let m := "音声認識エラー: API error: " ++ toString status
    ({ st with errorMsg := some m, surfaced := st.surfaced ++ [m] }, [])
  | .ok success result =>
    if success then
      match result with
      | some r =>
        match r.speakers with
        | some segs =>
          let p := processSegments st.speakers (jsOrDefault r.confidence (4/5)) segs
          ({ st with speakers := p.1, transcript := st.transcript ++ extFullText segs },
            p.2)
        | none =>
          match r.transcript with
          | some t =>
            if t != "" then
              ({ st with transcript := st.transcript ++ t ++ " " },
                [⟨t, true, jsOrDefault r.confidence (4/5), none⟩])
            else (st, [])
          | none => (st, [])
      | none => (st, [])
    else (st, [])

/-- Result of one `mediaRecorder.onstop` cycle end. -/
structure ExtStopResult where
  state : ExtState
  uploaded : Bool
  fragments : List Fragment
  restartScheduled : Bool
deriving DecidableEq, Repr

/-- Handler `mediaRecorder.onstop` (lines 209–233): build the blob from the
accumulated chunks; when its size is positive, send it (`sendAudioToAPI`,
parameterized here by the fetch outcome), otherwise skip the call entirely;
release the stream; then schedule a new recording cycle after 100 ms exactly
when `continuous && isListening`. The `isListening` this closure reads is not
the live state but the value captured at the render that created the running
`startRecording` instance — passed here as `captured`. In every reachable
execution `captured = false`: `start()` calls `setIsListening(true)` and then
invokes the `startRecording` closure of the current (pre-update) render, and
the 100 ms restart path re-invokes that same stale closure. -/
def extOnStop (cfg : ExtConfig) (captured : Bool) (st : ExtState) (o : ApiOutcome) :
    ExtStopResult :=
  let blobSize := st.chunks.foldl (· + ·) 0
  let sent := if blobSize > 0 then
      let p := sendAudioToAPI st o
      (p.1, true, p.2)
    else (st, false, [])
  if cfg.continuous && captured then
    ⟨{ sent.1 with restartTimer := some 100 }, sent.2.1, sent.2.2, true⟩
  else
    ⟨sent.1, sent.2.1, sent.2.2, false⟩

/-- Function `stop` (lines 275–286): clear `isListening`, clear the pending
recording-duration timeout, and stop the recorder (whose `onstop` then runs
on the resulting state). -/
def extStop (st : ExtState) : ExtState :=
  { st with isListening := false, recordingTimer := none }

/-! StreamingBackend: `use-streaming-speech-recognition.ts`. -/

/-- State of `useStreamingSpeechRecognition`. `sendInterval` is the periodic
send timer created by `setInterval` (holding its cadence), `none` when
cancelled. -/
structure StrState where
  isListening : Bool := false
  errorMsg : Option String := none
  speakers : Speakers := []
  transcript : String := ""
  interimTranscript : String := ""
  chunks : List Nat := []
  sendInterval : Option Nat := none
deriving DecidableEq, Repr

/-- Text joined as `data.result.speakers.map(s => s.text).join(' ')`. -/
def strJoinTexts : List SpeakerSegment → String
  | [] => ""
  | [seg] => seg.text
  | seg :: rest => seg.text ++ " " ++ strJoinTexts rest

/-- Function `sendAudioChunk` (lines 95–175): return at once when no chunk is
buffered; otherwise build the blob and clear the buffer, skip a zero-size
blob, then send. The whole body is wrapped in try/catch and a non-ok response
just returns, so every failure is absorbed: nothing is emitted and no other
state field changes. A successful response emits final fragments
(per speaker segment, confidence `data.result.confidence || 0.8`, resolving
names through the shared registry) or one fragment for a flat transcript. -/
def sendAudioChunk (st : StrState) (o : ApiOutcome) : StrState × List Fragment :=
  if st.chunks.isEmpty then (st, [])
  else
    let blobSize := st.chunks.foldl (· + ·) 0
    let st1 := { st with chunks := [] }
    if blobSize = 0 then (st1, [])
    else
      match o with
      | .netError _ => (st1, [])
      | .httpError _ => (st1, [])
      | .ok success result =>
        if success then
          match result with
          | some r =>
            match r.speakers with
            | some segs =>
              let p := processSegments st1.speakers (jsOrDefault r.confidence (4/5)) segs
              ({ st1 with
                  speakers := p.1,
                  transcript := st1.transcript ++ strJoinTexts segs ++ " " }, p.2)
            | none =>
              match r.transcript with
              | some t =>
                ({ st1 with transcript := st1.transcript ++ t ++ " " },
                  [⟨t, true, jsOrDefault r.confidence (4/5), none⟩])
              | none => (st1, [])
          | none => (st1, [])
        else (st1, [])

/-- Function `stop` (lines 263–287): clear `isListening` and the interim
buffer, cancel the send interval, stop the recorder and the stream tracks,
then flush any buffered chunks with one last `sendAudioChunk`. -/
def strStop (st : StrState) (o : ApiOutcome) : StrState × List Fragment :=
  let st1 := { st with isListening := false, interimTranscript := "", sendInterval := none }
  if st1.chunks.isEmpty then (st1, []) else sendAudioChunk st1 o

/-! TranscriptAssembler: the `useWebSpeechRecognition` `onResult` callback of
`src/app/presentation/[id]/page.tsx` (lines 221–246). Entry ids are the
values of `webSpeechIdCounter` (the source stores their decimal strings). -/

/-- A `TranscriptEntry` of the page (id embedded as the counter value whose
decimal string the source stores). -/
structure PageEntry where
  id : Nat
  speaker : String
  content : String
  isCurrentUser : Bool
deriving DecidableEq, Repr

/-- Assembly state: the id counter ref and the `transcriptEntries` list. -/
structure PageState where
  counter : Nat := 0
  entries : List PageEntry := []
deriving DecidableEq, Repr

/-- The initial assembly state. -/
def pageInit : PageState := ⟨0, []⟩

/-- The `onResult` callback: for a final result whose trimmed text is
non-empty, append one entry with the incremented counter as id, the current
speaker's name, the trimmed text and `isCurrentUser = true`; every other
result changes nothing. -/
def pageOnResult (spk : String) (p : PageState) (r : WebRes) : PageState :=
  if r.isFinal && jsTrim r.text != "" then
    { counter := p.counter + 1,
      entries := p.entries ++ [⟨p.counter + 1, spk, jsTrim r.text, true⟩] }
  else p

/-- Deliver a sequence of results to the assembler in order. -/
def pageProcessAll (spk : String) (p : PageState) (rs : List WebRes) : PageState :=
  rs.foldl (pageOnResult spk) p

/-- The entry list `[entry(F1), ..., entry(Fn)]` built from a counter start:
ids count up from `c + 1`. -/
def mkEntries (spk : String) : Nat → List WebRes → List PageEntry
  | _, [] => []
  | c, r :: rs => ⟨c + 1, spk, jsTrim r.text, true⟩ :: mkEntries spk (c + 1) rs

/-! Helper lemmas shared by the claim theorems. -/

theorem pageProcessAll_keep (spk : String) (c : Nat) (es : List PageEntry)
    (rs : List WebRes) (h : ∀ r ∈ rs, r.isFinal = true ∧ jsTrim r.text ≠ "") :
    pageProcessAll spk ⟨c, es⟩ rs = ⟨c + rs.length, es ++ mkEntries spk c rs⟩ := by
  induction rs generalizing c es with
  | nil => simp [pageProcessAll, mkEntries]
  | cons r rs ih =>
    have hr := h r (by simp)
    have hrs : ∀ x ∈ rs, x.isFinal = true ∧ jsTrim x.text ≠ "" := by
      intro x hx; exact h x (by simp [hx])
    have step : pageOnResult spk ⟨c, es⟩ r =
        ⟨c + 1, es ++ [⟨c + 1, spk, jsTrim r.text, true⟩]⟩ := by
      simp [pageOnResult, hr.1, hr.2]
    calc pageProcessAll spk ⟨c, es⟩ (r :: rs)
        = pageProcessAll spk (pageOnResult spk ⟨c, es⟩ r) rs := rfl
      _ = pageProcessAll spk ⟨c + 1, es ++ [⟨c + 1, spk, jsTrim r.text, true⟩]⟩ rs := by
          rw [step]
      _ = ⟨c + rs.length + 1, es ++ mkEntries spk c (r :: rs)⟩ := by
          rw [ih (c + 1) _ hrs]
          simp [mkEntries]
          omega
      _ = ⟨c + (r :: rs).length, es ++ mkEntries spk c (r :: rs)⟩ := by
          simp
          omega

theorem mkEntries_ids (spk : String) (c : Nat) (rs : List WebRes) :
    (mkEntries spk c rs).map PageEntry.id = List.range' (c + 1) rs.length := by
  induction rs generalizing c with
  | nil => simp [mkEntries]
  | cons r rs ih => simp [mkEntries, List.range'_succ, ih]

theorem range'_pairwise_lt (n s : Nat) : (List.range' s n).Pairwise (· < ·) := by
  induction n generalizing s with
  | zero => simp
  | succ k ih =>
    rw [List.range'_succ]
    refine List.Pairwise.cons ?_ (ih (s + 1))
    intro b hb
    have := (List.mem_range'_1.mp hb).1
    omega

theorem str_append_empty (s : String) : s ++ "" = s := by
  cases s with
  | mk data => show String.mk (data ++ []) = String.mk data; rw [List.append_nil]

theorem lookup_append_of_none (t : Nat) (s rest : Speakers)
    (h : s.lookup t = none) : (s ++ rest).lookup t = rest.lookup t := by
  induction s with
  | nil => rfl
  | cons p ps ih =>
    obtain ⟨k, v⟩ := p
    by_cases ht : (t == k) = true
    · simp [List.lookup, ht] at h
    · simp only [List.cons_append, List.lookup, ht] at h ⊢
      exact ih h

theorem sendAudioToAPI_isListening (st : ExtState) (o : ApiOutcome) :
    ((sendAudioToAPI st o).1).isListening = st.isListening := by
  rcases o with d | status | ⟨succ, res⟩
  · rfl
  · rfl
  · cases succ
    · rfl
    · rcases res with _ | r
      · rfl
      · rcases hs : r.speakers with _ | segs
        · rcases ht : r.transcript with _ | t
          · simp [sendAudioToAPI, hs, ht]
          · simp only [sendAudioToAPI, hs, ht]
            by_cases htt : (t != "") = true <;> simp [htt]
        · simp [sendAudioToAPI, hs]

theorem extOnStop_restartScheduled (cfg : ExtConfig) (captured : Bool)
    (st : ExtState) (o : ApiOutcome) :
    (extOnStop cfg captured st o).restartScheduled = (cfg.continuous && captured) := by
  unfold extOnStop
  by_cases h : st.chunks.foldl (· + ·) 0 > 0
  · by_cases hc : (cfg.continuous && captured) = true <;> simp [h, hc]
  · by_cases hc : (cfg.continuous && captured) = true <;> simp [h, hc]

theorem sendAudioChunk_preserves (st : StrState) (o : ApiOutcome) :
    ((sendAudioChunk st o).1).isListening = st.isListening ∧
    ((sendAudioChunk st o).1).sendInterval = st.sendInterval := by
  unfold sendAudioChunk
  by_cases he : st.chunks.isEmpty
  · simp [he]
  · simp only [he, Bool.false_eq_true, if_false]
    by_cases hz : st.chunks.foldl (· + ·) 0 = 0
    · simp [hz]
    · simp only [hz, if_false]
      rcases o with d | status | ⟨succ, res⟩
      · exact ⟨rfl, rfl⟩
      · exact ⟨rfl, rfl⟩
      · cases succ
        · exact ⟨rfl, rfl⟩
        · rcases res with _ | r
          · exact ⟨rfl, rfl⟩
          · rcases hs : r.speakers with _ | segs
            · rcases ht : r.transcript with _ | t
              · simp [hs, ht]
              · simp [hs, ht]
            · simp [hs]

/-! Claim theorems. -/

/-- Counterexample to claim C2 as stated: in the `SpeechRecognitionManager`
that `useSpeechRecognition` drives, a `network` error silently schedules the
internal 1-second fallback retry; calling `stop()` then (the hook's `stop`
calls the manager's, which only stops the engine) leaves that timer pending —
no `stop()`/`abort()` clears it — and when it fires it unconditionally
re-initializes and restarts recognition: a pending retry fires after `stop()`
and capture restarts. -/
theorem claim_C2_counterexample :
    ((mgrOnError true { hasRecognition := true, mgrListening := true } "network").1).pendingFallback
      = some 1000 ∧
    (mgrOnError true { hasRecognition := true, mgrListening := true } "network").2 = none ∧
    (mgrStop ((mgrOnError true { hasRecognition := true, mgrListening := true } "network").1)).pendingFallback
      = some 1000 ∧
    (mgrStop ((mgrOnError true { hasRecognition := true, mgrListening := true } "network").1)).mgrListening
      = false ∧
    (mgrFireFallback
        (mgrStop ((mgrOnError true { hasRecognition := true, mgrListening := true } "network").1))).mgrListening
      = true := by
  exact ⟨by decide, by decide, by decide, by decide, by decide⟩

/-- Claim C2 (amended): the hook-level timers are indeed all cleared or made
harmless by `stop()` — `useSpeechRecognition.stop` clears the retry timer and
counter; `useExternalSpeechRecognition.stop` clears the recording timeout and
`isListening` (and its recorder `onstop` never schedules a restart, its
captured listening flag being false); `useStreamingSpeechRecognition.stop`
cancels the periodic send interval, also across its final flush; and in
`useWebSpeechRecognition`, after `stop` nulls the recognition ref, a
still-pending retry timer firing attempts no start and `onend` schedules no
restart. However, the `SpeechRecognitionManager`'s internal fallback-retry
timer is cleared by neither its `stop()` nor `abort()`, and its callback
restarts recognition unconditionally, so a pending manager retry can fire and
restart capture after `stop()`. -/
theorem claim_C2_amended :
    (∀ s : SRState, (srStop s).retryTimeout = none ∧ (srStop s).retryCount = 0) ∧
    (∀ s : ExtState,
      (extStop s).recordingTimer = none ∧ (extStop s).isListening = false) ∧
    (∀ (cfg : ExtConfig) (s : ExtState) (o : ApiOutcome),
      (extOnStop cfg false (extStop s) o).restartScheduled = false) ∧
    (∀ (s : StrState) (o : ApiOutcome), ((strStop s o).1).sendInterval = none) ∧
    (∀ (cfg : WebConfig) (s : WebState), (webFireRestart cfg (webStop s)).2 = false) ∧
    (∀ (cfg : WebConfig) (s : WebState),
      (webOnEnd cfg (webStop s)).pendingRestart = (webStop s).pendingRestart) ∧
    (∀ m : MgrState, (mgrStop m).pendingFallback = m.pendingFallback) ∧
    (∀ m : MgrState, (mgrFireFallback m).mgrListening = true ∧
      (mgrFireFallback m).hasRecognition = true) := by
  refine ⟨fun s => ⟨rfl, rfl⟩, fun s => ⟨rfl, rfl⟩, ?_, ?_, ?_, ?_, ?_,
    fun m => ⟨rfl, rfl⟩⟩
  · intro cfg s o
    rw [extOnStop_restartScheduled]
    simp
  · intro s o
    simp only [strStop]
    by_cases he : s.chunks.isEmpty = true
    · simp [he]
    · simp only [he, Bool.false_eq_true, if_false]
      exact (sendAudioChunk_preserves _ o).2
  · intro cfg s
    simp [webFireRestart, webStop]
  · intro cfg s
    simp [webOnEnd, webStop]
  · intro m
    unfold mgrStop
    by_cases h : (m.hasRecognition && m.mgrListening) = true <;> simp [h]

/-- Claim C3 (confirmed): in `handleResult` of `useSpeechRecognition`, every
interim fragment replaces the interim buffer with exactly its own text (never
concatenating with earlier interim text), and every final fragment clears the
buffer to the empty string — stated per arrival and for the last element of
any arrival sequence. -/
theorem claim_C3 :
    (∀ (s : SRState) (r : TranscriptResult),
      (handleResult s r).interimTranscript = if r.isFinal then "" else r.text) ∧
    (∀ (s : SRState) (rs : List TranscriptResult) (r : TranscriptResult),
      (List.foldl handleResult s (rs ++ [r])).interimTranscript =
        if r.isFinal then "" else r.text) := by
  constructor
  · intro s r
    cases hf : r.isFinal <;> simp [handleResult, hf]
  · intro s rs r
    rw [List.foldl_append]
    cases hf : r.isFinal <;> simp [handleResult, hf]

/-- Claim C5 (confirmed): the name `generateSpeakerName` returns for a tag
does not depend on the registry state (so repeated resolutions of the same tag
always return the same name), and when the tag already has a stored name the
registry is left unchanged — re-assignment is a no-op. -/
theorem claim_C5 :
    (∀ (s1 s2 : Speakers) (t : Nat),
      (generateSpeakerName s1 t).2 = (generateSpeakerName s2 t).2) ∧
    (∀ (s : Speakers) (t : Nat) (n : String),
      s.lookup t = some n → (generateSpeakerName s t).1 = s) := by
  constructor
  · intro s1 s2 t; rfl
  · intro s t n h; simp [generateSpeakerName, h]

/-- Witness for claim C5 at a concrete registry already holding tag 2. -/
theorem claim_C5_witness :
    ([(2, "話者B")] : Speakers).lookup 2 = some "話者B" ∧
    (generateSpeakerName [(2, "話者B")] 2).1 = [(2, "話者B")] :=
  ⟨by decide, claim_C5.2 [(2, "話者B")] 2 "話者B" (by decide)⟩

/-- Counterexample to claim C6 as stated: in a fresh session the first
distinct tag resolved is 2, and it receives the pool's second name `話者B`,
not the pool's first name `話者A` — names are not assigned in first-seen
order. -/
theorem claim_C6_counterexample :
    (generateSpeakerName [] 2).2 = "話者B" ∧ (generateSpeakerName [] 2).2 ≠ "話者A" := by
  exact ⟨by decide, by decide⟩

/-- Claim C6 (amended): the pool name is keyed by the tag value, not by
first-seen order — the resolved name is independent of the registry state
(hence of which tags were seen earlier); a tag `t` with `1 ≤ t ≤ 5` receives
the `t`-th pool name regardless of observation order, and a tag past the pool
size receives the synthesized `話者{tag}` label. -/
theorem claim_C6_amended :
    (∀ (s1 s2 : Speakers) (t : Nat),
      (generateSpeakerName s1 t).2 = (generateSpeakerName s2 t).2) ∧
    (∀ (s : Speakers) (t : Nat), 1 ≤ t → t ≤ 5 →
      (generateSpeakerName s t).2 = speakerNames.getD (t - 1) "") ∧
    (∀ (s : Speakers) (t : Nat), 5 < t →
      (generateSpeakerName s t).2 = "話者" ++ toString t) := by
  refine ⟨fun s1 s2 t => rfl, ?_, ?_⟩
  · intro s t h1 h5
    show generateName t = speakerNames.getD (t - 1) ""
    interval_cases t <;> decide
  · intro s t h5
    show generateName t = "話者" ++ toString t
    have hz : ¬ t = 0 := by omega
    have hn : speakerNames.get? (t - 1) = none := by
      rw [List.get?_eq_getElem?]
      apply List.getElem?_eq_none
      simp only [speakerNames, List.length_cons, List.length_nil]
      omega
    rw [generateName, if_neg hz, hn]
    rfl

/-- Witness for claim C6 (amended) at tags 2 and 7 in a fresh registry. -/
theorem claim_C6_witness :
    (generateSpeakerName [] 2).2 = speakerNames.getD 1 "" ∧
    (generateSpeakerName [] 7).2 = "話者" ++ toString 7 :=
  ⟨claim_C6_amended.2.1 [] 2 (by decide) (by decide),
   claim_C6_amended.2.2 [] 7 (by decide)⟩

/-- Claim C7 (code bug): evaluation of the chunked-upload backend's `onstop`
at the failing input. The skip parts of the claim hold — a zero-byte blob
makes no upload call and emits no fragment — but the restart does not: the
closure's `continuous && isListening` test reads the render-captured
`isListening`, which is `false` in every reachable execution (captured before
`setIsListening(true)` re-renders, and the restart path re-invokes the same
stale closure), so no second cycle ever begins automatically, though the code
clearly intends one (`continuous` option, restart branch and its log line).
With the intended live value `true` the restart would be scheduled. -/
theorem claim_C7 (cfg : ExtConfig) (st : ExtState) (o : ApiOutcome)
    (hchunks : st.chunks.foldl (· + ·) 0 = 0) (hcont : cfg.continuous = true) :
    (extOnStop cfg false st o).uploaded = false ∧
    (extOnStop cfg false st o).fragments = [] ∧
    (extOnStop cfg false st o).restartScheduled = false ∧
    (extOnStop cfg false st o).state.restartTimer = st.restartTimer ∧
    (extOnStop cfg true st o).restartScheduled = true := by
  unfold extOnStop
  simp [hchunks, hcont]

/-- Witness for claim C7: a listening continuous session whose recorder
produced no data, with a provider outcome that would have succeeded. -/
theorem claim_C7_witness :
    (extOnStop {} false { isListening := true } (.ok true none)).uploaded = false ∧
    (extOnStop {} false { isListening := true } (.ok true none)).fragments = [] ∧
    (extOnStop {} false { isListening := true } (.ok true none)).restartScheduled = false ∧
    (extOnStop {} false { isListening := true } (.ok true none)).state.restartTimer = none ∧
    (extOnStop {} true { isListening := true } (.ok true none)).restartScheduled = true :=
  claim_C7 {} { isListening := true } (.ok true none) rfl rfl

/-- Claim C8 (confirmed): in the streaming backend, a failed chunk send —
rejected fetch or non-ok HTTP response — is absorbed inside `sendAudioChunk`
(a total function here, mirroring the source's try/catch and early return):
no fragment is emitted, the listening flag is untouched, and the periodic
send interval keeps its cadence. -/
theorem claim_C8 :
    ∀ (st : StrState) (detail : String) (status : Nat),
      ((sendAudioChunk st (.netError detail)).1.isListening = st.isListening ∧
       (sendAudioChunk st (.netError detail)).1.sendInterval = st.sendInterval ∧
       (sendAudioChunk st (.netError detail)).2 = []) ∧
      ((sendAudioChunk st (.httpError status)).1.isListening = st.isListening ∧
       (sendAudioChunk st (.httpError status)).1.sendInterval = st.sendInterval ∧
       (sendAudioChunk st (.httpError status)).2 = []) := by
  intro st detail status
  have hp1 := sendAudioChunk_preserves st (.netError detail)
  have hp2 := sendAudioChunk_preserves st (.httpError status)
  refine ⟨⟨hp1.1, hp1.2, ?_⟩, ⟨hp2.1, hp2.2, ?_⟩⟩ <;>
    · unfold sendAudioChunk
      by_cases he : st.chunks.isEmpty
      · simp [he]
      · simp only [he, Bool.false_eq_true, if_false]
        by_cases hz : st.chunks.foldl (· + ·) 0 = 0 <;> simp [hz]

/-- Claim C10 (confirmed): the resolved speaker name is a fixed function of
the tag alone (`generateName`), independent of call history: the `t`-th pool
name for `1 ≤ t ≤ 5`, the synthesized `話者{tag}` label for `t > 5`; and the
entry persisted for a newly seen tag is that same name, while an existing
entry is never overwritten. -/
theorem claim_C10 :
    (∀ (s : Speakers) (t : Nat), (generateSpeakerName s t).2 = generateName t) ∧
    (∀ t : Nat, 1 ≤ t → t ≤ 5 → generateName t = speakerNames.getD (t - 1) "") ∧
    (∀ t : Nat, 5 < t → generateName t = "話者" ++ toString t) ∧
    (∀ (s : Speakers) (t : Nat), s.lookup t = none →
      ((generateSpeakerName s t).1).lookup t = some (generateName t)) ∧
    (∀ (s : Speakers) (t : Nat) (n : String), s.lookup t = some n →
      (generateSpeakerName s t).1 = s) := by
  refine ⟨fun s t => rfl, ?_, ?_, ?_, ?_⟩
  · intro t h1 h5
    interval_cases t <;> decide
  · intro t h5
    have hz : ¬ t = 0 := by omega
    have hn : speakerNames.get? (t - 1) = none := by
      rw [List.get?_eq_getElem?]
      apply List.getElem?_eq_none
      simp only [speakerNames, List.length_cons, List.length_nil]
      omega
    rw [generateName, if_neg hz, hn]
    rfl
  · intro s t h
    simp only [generateSpeakerName, h]
    rw [lookup_append_of_none t s _ h]
    simp [List.lookup]
  · intro s t n h
    simp [generateSpeakerName, h]

/-- Witness for claim C10 at tags 3, 9 and a fresh lookup of tag 4. -/
theorem claim_C10_witness :
    generateName 3 = speakerNames.getD 2 "" ∧
    generateName 9 = "話者" ++ toString 9 ∧
    ((generateSpeakerName [(1, "話者A")] 4).1).lookup 4 = some (generateName 4) ∧
    (generateSpeakerName [(1, "話者A")] 1).1 = [(1, "話者A")] :=
  ⟨claim_C10.2.1 3 (by decide) (by decide),
   claim_C10.2.2.1 9 (by decide),
   claim_C10.2.2.2.1 [(1, "話者A")] 4 (by decide),
   claim_C10.2.2.2.2 [(1, "話者A")] 1 "話者A" (by decide)⟩

/-- Counterexample to claim C1 as stated: in the native backend the page
mounts (`useWebSpeechRecognition`), a streak of 4 consecutive `network`
errors from a fresh listening session schedules restarts after 1000, 2000 and
3000 ms — the linear schedule `retryDelay * retryCount`, not the exponential
`baseDelay * 2^(k-1)` schedule the claim states (which would be 1000, 2000,
4000). -/
theorem claim_C1_counterexample :
    (webNetStreak {} 4 webInit).2 = [1000, 2000, 3000] ∧
    (webNetStreak {} 4 webInit).2 ≠ [1000 * 2 ^ 0, 1000 * 2 ^ 1, 1000 * 2 ^ 2] := by
  exact ⟨by decide, by decide⟩

/-- Claim C1 (amended): under consecutive `network` failures with no
intervening success, `useWebSpeechRecognition` (maxRetries = 3,
retryDelay = 1000) schedules exactly 3 restarts, the k-th after the linear
delay `1000 * k`; the next failure then only clears the listening flag — no
terminal error is surfaced through `onError` on that path — leaves no restart
pending, and a subsequent engine `onend` schedules no restart either (the
budget stays exhausted until `start()` resets it). In `useSpeechRecognition`
over the fallback `SpeechRecognitionManager`: each engine `network` error is
first retried inside the manager (fixed 1-second delays, two attempts,
nothing surfaced); every third consecutive engine failure surfaces the
manager's Japanese network message, which contains `ネットワーク`, so the hook's
retry branch is live and schedules its k-th restart after the exponential
delay `retryDelay * 2^(k-1)` (2000, 4000, 8000 ms with defaults), each
restart creating a fresh manager; once the hook budget is spent, the next
surfaced failure is terminal — `onError` is called, listening becomes false,
the counter resets, and nothing further is scheduled. A sustained streak of
12 engine failures thus produces 8 manager-internal 1 s restarts and 3
exponential hook restarts before the terminal error. -/
theorem claim_C1_amended :
    ((webNetStreak {} 4 webInit).2 = [1000, 2000, 3000] ∧
     (webNetStreak {} 4 webInit).1.isListening = false ∧
     (webNetStreak {} 4 webInit).1.pendingRestart = none ∧
     (webNetStreak {} 4 webInit).1.surfaced = [] ∧
     (webOnEnd {} (webNetStreak {} 4 webInit).1).pendingRestart = none) ∧
    (strIncludes mgrNetworkMsg "ネットワーク" = true) ∧
    ((composedStreak {} 12 composedInit).2.1 = List.replicate 8 1000 ∧
     (composedStreak {} 12 composedInit).2.2 = [2000, 4000, 8000] ∧
     (composedStreak {} 12 composedInit).1.hook.isListening = false ∧
     (composedStreak {} 12 composedInit).1.hook.surfaced = [mgrNetworkMsg] ∧
     (composedStreak {} 12 composedInit).1.hook.retryCount = 0) ∧
    (∀ (cfg : SRConfig) (s : SRState) (msg : String),
      s.retryCount < cfg.maxRetries → strIncludes msg "ネットワーク" = true →
      (handleError cfg s msg true).retryTimeout =
        some (cfg.retryDelay * 2 ^ s.retryCount) ∧
      (handleError cfg s msg true).retryCount = s.retryCount + 1) ∧
    (∀ (cfg : SRConfig) (s : SRState) (msg : String),
      ¬ s.retryCount < cfg.maxRetries →
      (handleError cfg s msg true).isListening = false ∧
      (handleError cfg s msg true).surfaced = s.surfaced ++ [msg] ∧
      (handleError cfg s msg true).retryCount = 0 ∧
      (handleError cfg s msg true).retryTimeout = s.retryTimeout) := by
  refine ⟨by exact ⟨by decide, by decide, by decide, by decide, by decide⟩,
    by decide,
    by exact ⟨by decide, by decide, by decide, by decide, by decide⟩,
    ?_, ?_⟩
  · intro cfg s msg h1 h2
    simp [handleError, h1, h2]
  · intro cfg s msg h1
    simp [handleError, h1]

/-- Witness for claim C1 (amended): the exponential branch of
`useSpeechRecognition.handleError` at the manager's surfaced network message
with one retry already consumed, and the terminal branch with the budget
spent. -/
theorem claim_C1_witness :
    (handleError {} { retryCount := 1 } mgrNetworkMsg true).retryTimeout =
      some (2000 * 2 ^ 1) ∧
    (handleError {} { retryCount := 3 } mgrNetworkMsg true).isListening = false :=
  ⟨(claim_C1_amended.2.2.2.1 {} { retryCount := 1 } mgrNetworkMsg
      (by decide) (by decide)).1,
   (claim_C1_amended.2.2.2.2 {} { retryCount := 3 } mgrNetworkMsg (by decide)).1⟩

/-- Counterexample to claim C4 as stated: a single final fragment whose text
is the lone space character produces no `TranscriptEntry` at all — the
assembled list is empty rather than `[entry(F1)]`, because the `onResult`
callback drops final results whose trimmed text is empty. -/
theorem claim_C4_counterexample :
    (pageProcessAll "話者1" pageInit [⟨" ", none, true⟩]).entries = [] ∧
    (pageProcessAll "話者1" pageInit [⟨" ", none, true⟩]).entries.length ≠ 1 := by
  exact ⟨by decide, by decide⟩

/-- Claim C4 (amended): the assembled entry list is append-only — each
delivered result either leaves it unchanged or appends exactly one entry —
and for every sequence of final fragments whose trimmed text is non-empty,
the assembled list is exactly `[entry(F1), ..., entry(Fn)]` in delivery
order, with ids `1, ..., n` strictly increasing; fragments that are interim
or trim to empty are skipped without an entry. -/
theorem claim_C4_amended :
    (∀ (spk : String) (p : PageState) (r : WebRes),
      (pageOnResult spk p r).entries = p.entries ∨
      (pageOnResult spk p r).entries =
        p.entries ++ [⟨p.counter + 1, spk, jsTrim r.text, true⟩]) ∧
    (∀ (spk : String) (rs : List WebRes),
      (∀ r ∈ rs, r.isFinal = true ∧ jsTrim r.text ≠ "") →
      (pageProcessAll spk pageInit rs).entries = mkEntries spk 0 rs ∧
      (pageProcessAll spk pageInit rs).entries.map PageEntry.id =
        List.range' 1 rs.length ∧
      ((pageProcessAll spk pageInit rs).entries.map PageEntry.id).Pairwise
        (· < ·)) := by
  constructor
  · intro spk p r
    by_cases h : (r.isFinal && jsTrim r.text != "") = true
    · right; simp [pageOnResult, h]
    · left; simp [pageOnResult, h]
  · intro spk rs h
    have hk := pageProcessAll_keep spk 0 [] rs h
    have he : (pageProcessAll spk pageInit rs).entries = mkEntries spk 0 rs := by
      show (pageProcessAll spk ⟨0, []⟩ rs).entries = mkEntries spk 0 rs
      rw [hk]
      simp
    refine ⟨he, ?_, ?_⟩
    · rw [he, mkEntries_ids]
    · rw [he, mkEntries_ids]
      exact range'_pairwise_lt rs.length 1

/-- Witness for claim C4 (amended): two concrete final fragments. -/
theorem claim_C4_witness :
    (pageProcessAll "話者A" pageInit
        [⟨"こんにちは", none, true⟩, ⟨"はい", none, true⟩]).entries =
      mkEntries "話者A" 0 [⟨"こんにちは", none, true⟩, ⟨"はい", none, true⟩] :=
  (claim_C4_amended.2 "話者A" [⟨"こんにちは", none, true⟩, ⟨"はい", none, true⟩]
    (by decide)).1

/-- Counterexample to claim C9 as stated: in the native backend the page
mounts (`useWebSpeechRecognition.onresult`), a final provider result with no
confidence score yields a fragment with confidence 0 — the fallback is
`|| 0`, not the 0.8 default the claim states (0.8 belongs to the upload and
streaming backends). -/
theorem claim_C9_counterexample :
    (webOnResult {} {} [⟨"こんにちは", none, true⟩]).2.map WebFragOut.confidence
      = [0] ∧ (0 : ℚ) ≠ 4 / 5 := by
  refine ⟨by decide, by norm_num⟩

/-- Decomposition of the `onresult` loop over an arbitrary event batch: the
final fragments collected are exactly one per final result, in order, each
with confidence `result[0].confidence || 0`. -/
theorem webCollect_finals (ev : List WebRes) :
    (webCollect ev).2.2 = (ev.filter (fun r => r.isFinal)).map
      (fun r => (⟨r.text, r.confidence.getD 0, true, false⟩ : WebFragOut)) := by
  induction ev with
  | nil => rfl
  | cons r rs ih =>
    cases hf : r.isFinal <;> simp [webCollect, hf, ih]

/-- Claim C9 (amended): over every result event batch of
`useWebSpeechRecognition.onresult`, the emitted fragments are exactly one
final fragment per final result, in order, each with the provider score of
its source result when present and 0 when absent (`|| 0`), followed by at
most one interim fragment whose confidence is always the literal 0; so every
emitted final fragment carries the score-or-0 of its own result and every emitted
interim fragment carries 0. `SpeechRecognitionManager.onresult` copies each
provider score through unchanged, applying no default at all. No 0.8 default
exists anywhere in the native path. -/
theorem claim_C9_amended :
    (∀ (cfg : WebConfig) (s : WebState) (ev : List WebRes),
      (webOnResult cfg s ev).2 =
        (ev.filter (fun r => r.isFinal)).map
          (fun r => (⟨r.text, r.confidence.getD 0, true, false⟩ : WebFragOut)) ++
        (if (webCollect ev).2.1 != "" && cfg.interimResults then
          [⟨(webCollect ev).2.1, 0, false, true⟩] else [])) ∧
    (∀ (cfg : WebConfig) (s : WebState) (ev : List WebRes) (f : WebFragOut),
      f ∈ (webOnResult cfg s ev).2 →
      (f.isFinal = true → ∃ r, r ∈ ev ∧ r.isFinal = true ∧ f.text = r.text ∧
        f.confidence = r.confidence.getD 0) ∧
      (f.isFinal = false → f.confidence = 0)) ∧
    (∀ ev : List WebRes,
      (mgrOnResult ev).map TranscriptResult.confidence = ev.map WebRes.confidence) := by
  have hchar : ∀ (cfg : WebConfig) (s : WebState) (ev : List WebRes),
      (webOnResult cfg s ev).2 =
        (ev.filter (fun r => r.isFinal)).map
          (fun r => (⟨r.text, r.confidence.getD 0, true, false⟩ : WebFragOut)) ++
        (if (webCollect ev).2.1 != "" && cfg.interimResults then
          [⟨(webCollect ev).2.1, 0, false, true⟩] else []) := by
    intro cfg s ev
    show (webCollect ev).2.2 ++ _ = _
    rw [webCollect_finals]
  refine ⟨hchar, ?_, ?_⟩
  · intro cfg s ev f hmem
    rw [hchar] at hmem
    rcases List.mem_append.mp hmem with hfin | hint
    · rcases List.mem_map.mp hfin with ⟨r, hr, hfr⟩
      have hrev := (List.mem_filter.mp hr).1
      have hrfin := (List.mem_filter.mp hr).2
      constructor
      · intro _
        exact ⟨r, hrev, by simpa using hrfin, by rw [← hfr], by rw [← hfr]⟩
      · intro hff
        rw [← hfr] at hff
        simp at hff
    · by_cases hc : ((webCollect ev).2.1 != "" && cfg.interimResults) = true
      · rw [if_pos hc] at hint
        rcases List.mem_singleton.mp hint with rfl
        constructor
        · intro hff
          simp at hff
        · intro _
          rfl
      · rw [if_neg hc] at hint
        simp at hint
  · intro ev
    simp [mgrOnResult]

/-- Witness for claim C9 (amended): a three-result batch — two finals, one
with a score of 1/2 and one with none, then an interim — under the default
configuration; the per-fragment conjunct is applied to its second final
fragment, whose confidence is 0. -/
theorem claim_C9_witness :
    (⟨"はい", (0 : ℚ), true, false⟩ : WebFragOut) ∈
      (webOnResult {} {}
        [⟨"こんにちは", some 1, true⟩, ⟨"はい", none, true⟩, ⟨"こん", none, false⟩]).2 ∧
    (∃ r, r ∈ ([⟨"こんにちは", some 1, true⟩, ⟨"はい", none, true⟩, ⟨"こん", none, false⟩] :
        List WebRes) ∧ r.isFinal = true ∧
      (⟨"はい", (0 : ℚ), true, false⟩ : WebFragOut).text = r.text ∧
      (⟨"はい", (0 : ℚ), true, false⟩ : WebFragOut).confidence = r.confidence.getD 0) :=
  ⟨by decide,
   ((claim_C9_amended.2.1 {} {}
      [⟨"こんにちは", some 1, true⟩, ⟨"はい", none, true⟩, ⟨"こん", none, false⟩]
      ⟨"はい", (0 : ℚ), true, false⟩ (by decide)).1 rfl)⟩

end SpeechCore
